import Mathlib

set_option autoImplicit false

/-!
Verification of the service-window and order-settlement engine
(`AssetService` in `src/index.ts`): package resolution, service-window
calculation, payment/refund settlement, and the device-binding
orchestrator.  Timestamps are modelled as integers (minutes since an
arbitrary epoch); database rows are immutable Lean structures; each
stateful operation is embedded as a pure function from its inputs (and
an explicit `now`) to a result record carrying the updated rows, the
emitted downstream effects and the returned outcome (`Option String`,
mirroring the fp-ts `O.Option<string>` return type).
-/

/-- Timestamps: minutes since an arbitrary epoch. -/
abbrev Time := Int

/-- Modelled from the spec: the time-unit table used by the date-arithmetic
primitives of `src/common/time-helper` / `src/dto/logic/calculate`, which are
not under `src/`.  The spec requires one uniform calendar policy; we model
every unit as a fixed length in minutes (month = 30 days, year = 365 days).
An unknown unit contributes nothing. -/
def unitMinutes : String → Int
  | "minute" => 1
  | "hour" => 60
  | "day" => 1440
  | "week" => 10080
  | "month" => 43200
  | "year" => 525600
  | _ => 0

/-- Modelled from the spec: `calculateEndTime` from `src/dto/logic/calculate`
(not under `src/`): advance a timestamp by `duration` in `timeUnit`, with the
fixed-length unit policy of `unitMinutes` applied uniformly. -/
def calculateEndTime (t : Time) (duration : Int) (timeUnit : String) : Time :=
  t + duration * unitMinutes timeUnit

/-- A `(duration, timeUnit)` pair, the shape taken by the window-calculation
rules and by resolved open rules. -/
structure Rule where
  duration : Int
  timeUnit : String
deriving Repr, DecidableEq

/-- Modelled from the spec: `calculateServiceEndTimeForRenew` from
`src/dto/logic/calculate` (not under `src/`): advance the current service end
time (never `now`) by the rule's duration/unit, then by the gift's
duration/unit when a gift is present. -/
def calculateServiceEndTimeForRenew (currentServiceEndTime : Time) (rule : Rule)
    (gift : Option Rule) : Time :=
  match gift with
  | none => calculateEndTime currentServiceEndTime rule.duration rule.timeUnit
  | some g =>
      calculateEndTime (calculateEndTime currentServiceEndTime rule.duration rule.timeUnit)
        g.duration g.timeUnit

/-- A physical tracking device.  `silentPeriodEndTime` is typed
`Date | null` in the source but is asserted non-null (`!`) before use in
`calculateServiceTimeRangeForOpen`; we model it as present. -/
structure Tracker where
  id : String
  trackerNumber : String
  trackerModelId : String
  silentPeriodEndTime : Time
deriving Repr, DecidableEq

/-- The billable entity wrapping one tracker (`Asset` row).
`serviceEndTime = none` means the asset was never activated. -/
structure Asset where
  id : String
  userId : Option String
  merchantId : String
  serviceStartTime : Option Time
  serviceEndTime : Option Time
  trackerBoundAt : Option Time
  trackerId : Option String
deriving Repr, DecidableEq

/-- A tracker joined with its asset (`TrackerWithAsset`). -/
structure TrackerWithAsset extends Tracker where
  asset : Asset
deriving Repr, DecidableEq

/-- A device model row (`TrackerModel`); only its id is consulted. -/
structure TrackerModel where
  id : String
deriving Repr, DecidableEq

/-- A package's bind rule (`DeviceBindRule`). -/
structure DeviceBindRule where
  chargeDuration : Int
  chargeTimeUnit : String
deriving Repr, DecidableEq

/-- A recharge rule (`DeviceRechargeRule`), optionally flagged as the
opening rule. -/
structure DeviceRechargeRule where
  chargeDuration : Int
  chargeTimeUnit : String
  isOpeningRule : Bool
deriving Repr, DecidableEq

/-- A billing package joined with its bind rule, recharge rules and
compatible models (`DevicePackageWithModel`).  `merchantId = none` marks a
platform-wide package. -/
structure DevicePackageWithModel where
  id : String
  merchantId : Option String
  isRelatedOpen : Bool
  deviceBindRule : Option DeviceBindRule
  deviceRechargeRules : List DeviceRechargeRule
  trackereModels : List TrackerModel
deriving Repr, DecidableEq

/-- The first-pass predicate of `findDevicePackageByDevice`: the package's
merchant id equals the device's asset's merchant id (strict `===`, so a
platform package with null merchant never matches a non-null asset merchant)
and some compatible model has the device's model id. -/
def merchantModelMatch (device : TrackerWithAsset) (pkg : DevicePackageWithModel) : Bool :=
  (pkg.merchantId == some device.asset.merchantId)
    && pkg.trackereModels.any (fun m => m.id == device.trackerModelId)

/-- The second-pass predicate of `findDevicePackageByDevice`: a platform-wide
package (`merchantId == null`) whose compatible models contain the device's
model id. -/
def platformModelMatch (device : TrackerWithAsset) (pkg : DevicePackageWithModel) : Bool :=
  (pkg.merchantId == none)
    && pkg.trackereModels.any (fun m => m.id == device.trackerModelId)

/-- Embeds `findDevicePackageByDevice`: first `find` over the merchant-match
predicate, and only when that yields nothing, `find` over the platform-match
predicate (`?? null`). -/
def findDevicePackageByDevice (device : TrackerWithAsset)
    (devicePackages : List DevicePackageWithModel) : Option DevicePackageWithModel :=
  match devicePackages.find? (merchantModelMatch device) with
  | some pkg => some pkg
  | none => devicePackages.find? (platformModelMatch device)

/-- Embeds `buildTrackersWithPackageRelation`: resolve every device
independently, preserving input order, propagating `none`. -/
def buildTrackersWithPackageRelation (devices : List TrackerWithAsset)
    (devicePackages : List DevicePackageWithModel) :
    List (TrackerWithAsset × Option DevicePackageWithModel) :=
  devices.map (fun device => (device, findDevicePackageByDevice device devicePackages))

/-- Embeds `chooseOpenRule`: for an `isRelatedOpen` package take the bind
rule's duration/unit (or `none` when absent); otherwise the first
`isOpeningRule`-flagged recharge rule (or `none` when there is no such
rule). -/
def chooseOpenRule (devicePackage : DevicePackageWithModel) : Option Rule :=
  if devicePackage.isRelatedOpen then
    match devicePackage.deviceBindRule with
    | none => none
    | some bindRule => some ⟨bindRule.chargeDuration, bindRule.chargeTimeUnit⟩
  else
    match (devicePackage.deviceRechargeRules.filter (fun x => x.isOpeningRule)) with
    | [] => none
    | r :: _ => some ⟨r.chargeDuration, r.chargeTimeUnit⟩

/-- A computed service window. -/
structure TimeRange where
  startTime : Time
  endTime : Time
deriving Repr, DecidableEq

/-- Embeds `calculateServiceTimeRangeForOpen`: anchor at `now` when `now`
is strictly before the tracker's silent-period end (`isBefore`), otherwise at
the silent-period end; the end time advances the anchor by the rule and then
by the gift when present.  `now` (the source's ambient `getNow()`) is passed
explicitly. -/
def calculateServiceTimeRangeForOpen (tracker : Tracker) (rule : Rule)
    (gift : Option Rule) (now : Time) : TimeRange :=
  let silentPeriodEndTime := tracker.silentPeriodEndTime
  let calculateEndTimeForGift := fun (startTime : Time) =>
    let endTime := calculateEndTime startTime rule.duration rule.timeUnit
    match gift with
    | none => endTime
    | some g => calculateEndTime endTime g.duration g.timeUnit
  if now < silentPeriodEndTime then
    { startTime := now, endTime := calculateEndTimeForGift now }
  else
    { startTime := silentPeriodEndTime, endTime := calculateEndTimeForGift silentPeriodEndTime }

/-- A billing order row (`AssetServicePeriodOrder`). -/
structure AssetServicePeriodOrder where
  id : String
  orderNumber : String
  externalOrderNumber : Option String
  orderTarget : String
  paidAmount : Option Int
  paidAt : Option Time
  processedAt : Option Time
  refundApplyAt : Option Time
  refundedAmount : Option Int
  refundedAt : Option Time
  servicePeriod : Int
  servicePeriodTimeUnit : String
  giftDuration : Option Int
  giftTimeUnit : Option String
  isNeedProfitSharing : Bool
  refundOrderNumber : Option String
  assetId : String
deriving Repr, DecidableEq

/-- Modelled from the spec: the `OrderTargetEnums` constants of
`src/dto/consts` (not under `src/`): the order target kinds Activate and
Renewal. -/
def OrderTargetEnums.Activate : String := "Activate"

/-- Modelled from the spec: the Renewal member of `OrderTargetEnums`. -/
def OrderTargetEnums.Renewal : String := "Renewal"

/-- Modelled from the spec: the `AssetOrderStatusEnums` constants of
`src/dto/consts` (not under `src/`): the four derived order statuses. -/
def AssetOrderStatusEnums.Unpaid : String := "Unpaid"

/-- Modelled from the spec: the Paid member of `AssetOrderStatusEnums`. -/
def AssetOrderStatusEnums.Paid : String := "Paid"

/-- Modelled from the spec: the RefundPending member of
`AssetOrderStatusEnums`. -/
def AssetOrderStatusEnums.RefundPending : String := "RefundPending"

/-- Modelled from the spec: the Refunded member of `AssetOrderStatusEnums`. -/
def AssetOrderStatusEnums.Refunded : String := "Refunded"

/-- A coupon row; `usedAt` is the write-once guard for consumption. -/
structure Coupon where
  id : String
  activity : String
  usedAt : Option Time
  orderId : Option String
deriving Repr, DecidableEq

/-- Modelled from the spec: the `ActivityEnums.DOUBLE_TWELVE` promotional
activity tag of `src/dto/consts` (not under `src/`). -/
def ActivityEnums.DOUBLE_TWELVE : String := "DOUBLE_TWELVE"

/-- Modelled from the spec: `isNullOrEmptyString` from
`src/common/string-helper` (not under `src/`): true on `null` and on the
empty string. -/
def isNullOrEmptyString : Option String → Bool
  | none => true
  | some s => s == ""

/-- One downstream call fired by settlement or binding: CDC events, the
profit-sharing record request, per-asset alarm refresh, and the batched
realtime-status clear.  Each carries the identifying payload the source
passes. -/
inductive Effect where
  | sendToCDC (kind : String) (id : String)
  | sendToCDCBatch (events : List (String × String))
  | createProfitSharingRecord (orderId : String)
  | alarmRefresh (assetId : String)
  | batchClearRealtimeStatus (devices : List (String × String))
deriving Repr, DecidableEq

/-- The observable result of a settlement call: the returned
`O.Option<string>` outcome, the order and asset rows as stored afterwards,
the coupon table afterwards, and the downstream effects fired, in call
order. -/
structure PayResult where
  outcome : Option String
  order : AssetServicePeriodOrder
  asset : Asset
  coupons : List Coupon
  effects : List Effect
deriving Repr, DecidableEq

/-- Embeds `handleActivateSuccess`: write the payment fields and
`processedAt = now` on the order, compute the open window from the order's
service period and gift (gift only when both fields are non-null), overwrite
the asset's service start/end times, emit one CDC event for the tracker, and
request profit sharing when flagged. -/
def handleActivateSuccess (order : AssetServicePeriodOrder) (amount : Int)
    (paidAt : Time) (tracker : Tracker) (userAsset : Asset)
    (transactionId : String) (coupons : List Coupon) (now : Time) : PayResult :=
  let updatedOrder := { order with
    paidAmount := some amount
    paidAt := some paidAt
    externalOrderNumber := some transactionId
    processedAt := some now }
  let timeRange := calculateServiceTimeRangeForOpen tracker
    ⟨order.servicePeriod, order.servicePeriodTimeUnit⟩
    (match order.giftDuration, order.giftTimeUnit with
      | some d, some u => some ⟨d, u⟩
      | _, _ => none)
    now
  let updatedAsset := { userAsset with
    serviceStartTime := some timeRange.startTime
    serviceEndTime := some timeRange.endTime }
  { outcome := none
    order := updatedOrder
    asset := updatedAsset
    coupons := coupons
    effects := [Effect.sendToCDC "device-changed" tracker.id]
      ++ (if order.isNeedProfitSharing then [Effect.createProfitSharingRecord order.id] else []) }

/-- Embeds `handleRenewSuccess`: write the payment fields and
`processedAt = now` on the order first; then, if the asset has no service end
time, return the precondition-violation outcome with nothing else written;
otherwise consume a matching unused DOUBLE_TWELVE coupon when `attach` is a
non-empty id, extend the asset's service end time from its current value, emit
a CDC event when the asset has a tracker, and request profit sharing when
flagged. -/
def handleRenewSuccess (order : AssetServicePeriodOrder) (amount : Int)
    (paidAt : Time) (userAsset : Asset) (transactionId : String)
    (attach : Option String) (coupons : List Coupon) (now : Time) : PayResult :=
  let updatedOrder := { order with
    paidAmount := some amount
    paidAt := some paidAt
    externalOrderNumber := some transactionId
    processedAt := some now }
  match userAsset.serviceEndTime with
  | none =>
      { outcome := some ("userAsset service end time is null, we can not renew it, userAsset id: "
          ++ userAsset.id ++ ", order id: " ++ order.id)
        order := updatedOrder
        asset := userAsset
        coupons := coupons
        effects := [] }
  | some currentServiceEndTime =>
      let updatedCoupons :=
        if isNullOrEmptyString attach = false then
          match coupons.find? (fun c =>
              (some c.id == attach) && (c.activity == ActivityEnums.DOUBLE_TWELVE)
                && (c.usedAt == none)) with
          | none => coupons
          | some coupon =>
              coupons.map (fun c =>
                if c.id == coupon.id then
                  { c with usedAt := some now, orderId := some order.id }
                else c)
        else coupons
      let newServiceEndTime := calculateServiceEndTimeForRenew currentServiceEndTime
        ⟨order.servicePeriod, order.servicePeriodTimeUnit⟩
        (match order.giftDuration, order.giftTimeUnit with
          | some d, some u => some ⟨d, u⟩
          | _, _ => none)
      let updatedAsset := { userAsset with serviceEndTime := some newServiceEndTime }
      { outcome := none
        order := updatedOrder
        asset := updatedAsset
        coupons := updatedCoupons
        effects :=
          (match userAsset.trackerId with
            | some trackerId => [Effect.sendToCDC "device-changed" trackerId]
            | none => [])
          ++ (if order.isNeedProfitSharing then [Effect.createProfitSharingRecord order.id] else []) }

/-- Embeds `handlePaySuccess`: the `processedAt` write-once guard first
(idempotent duplicate outcome, no writes, no effects), then dispatch on the
order target to activation or renewal handling, else the unknown-target
outcome. -/
def handlePaySuccess (order : AssetServicePeriodOrder) (amount : Int)
    (paidAt : Time) (tracker : Tracker) (userAsset : Asset)
    (transactionId : String) (attach : Option String) (coupons : List Coupon)
    (now : Time) : PayResult :=
  if order.processedAt ≠ none then
    { outcome := some ("order has been processed, we just ignore it, order id: " ++ order.id)
      order := order
      asset := userAsset
      coupons := coupons
      effects := [] }
  else if order.orderTarget = OrderTargetEnums.Activate then
    handleActivateSuccess order amount paidAt tracker userAsset transactionId coupons now
  else if order.orderTarget = OrderTargetEnums.Renewal then
    handleRenewSuccess order amount paidAt userAsset transactionId attach coupons now
  else
    { outcome := some ("unknown order target: " ++ order.orderTarget
        ++ ", order id: " ++ order.id)
      order := order
      asset := userAsset
      coupons := coupons
      effects := [] }

/-- The observable result of `handleRefundSuccess`: the outcome and the order
row as stored afterwards.  The source function receives no asset, tracker or
coupon and issues no downstream call, which the result type records with an
always-relevant effects list. -/
structure RefundResult where
  outcome : Option String
  order : AssetServicePeriodOrder
  effects : List Effect
deriving Repr, DecidableEq

/-- Embeds `handleRefundSuccess`: the `refundedAt` write-once guard first
(idempotent duplicate outcome, no write), otherwise set exactly
`refundedAmount` and `refundedAt`. -/
def handleRefundSuccess (order : AssetServicePeriodOrder) (amount : Int)
    (refundedAt : Time) : RefundResult :=
  if order.refundedAt ≠ none then
    { outcome := some ("order has been refunded, we just ignore it, order id: " ++ order.id)
      order := order
      effects := [] }
  else
    { outcome := none
      order := { order with refundedAmount := some amount, refundedAt := some refundedAt }
      effects := [] }

/-- A device paired with its (possibly absent) computed service window
(`DeviceWithServiceTimeRange`). -/
structure DeviceWithServiceTimeRange where
  tracker : TrackerWithAsset
  serviceTimeRange : Option TimeRange
deriving Repr, DecidableEq

/-- A device paired with its resolved package and open rule
(`DeviceWithDevicePackageAndOpenRule`). -/
structure DeviceWithDevicePackageAndOpenRule where
  tracker : TrackerWithAsset
  devicePackage : DevicePackageWithModel
  openRule : DeviceBindRule
deriving Repr, DecidableEq

/-- A notification-config row as created at bind time; the uuid primary key
comes from the external `createUUID` and is not modelled. -/
structure AssetNotificationConfig where
  kind : String
  appNotification : Bool
  smsNotification : Bool
  phoneNotification : Bool
  wechatNotification : Bool
  phoneAlarmStartTime : String
  phoneAlarmEndTime : String
  smsAlarmStartTime : String
  smsAlarmEndTime : String
  createdAt : Time
  createdBy : String
  assetId : String
deriving Repr, DecidableEq

/-- One statement queued into the binding transaction (`tasks` array): the
already-activated asset update, the not-yet-activated asset update, or a
notification-config create. -/
inductive BindTask where
  | assetUpdateActivated (assetId : String) (userId : String)
      (serviceStartTime : Time) (trackerBoundAt : Time)
  | assetUpdateUnactivated (assetId : String) (userId : String)
      (serviceStartTime : Time) (serviceEndTime : Time) (trackerBoundAt : Time)
  | notifConfigCreate (config : AssetNotificationConfig)
deriving Repr, DecidableEq

/-- The storage state the binding transaction acts on: the asset table and
the notification-config table. -/
structure BindState where
  assets : List Asset
  notifConfigs : List AssetNotificationConfig
deriving Repr, DecidableEq

/-- An `asset.update` by id: fails (Prisma rejects) when no row has the id,
otherwise rewrites the matching rows with `f`. -/
def updateAssetById (st : BindState) (assetId : String) (f : Asset → Asset) :
    Option BindState :=
  if st.assets.any (fun a => a.id == assetId) then
    some { st with assets := st.assets.map (fun a => if a.id == assetId then f a else a) }
  else
    none

/-- Applies one queued statement to the storage state; `none` is the
statement failing. -/
def applyTask (task : BindTask) (st : BindState) : Option BindState :=
  match task with
  | BindTask.assetUpdateActivated assetId userId serviceStartTime trackerBoundAt =>
      updateAssetById st assetId (fun a => { a with
        userId := some userId
        serviceStartTime := some serviceStartTime
        trackerBoundAt := some trackerBoundAt })
  | BindTask.assetUpdateUnactivated assetId userId serviceStartTime serviceEndTime trackerBoundAt =>
      updateAssetById st assetId (fun a => { a with
        userId := some userId
        serviceStartTime := some serviceStartTime
        serviceEndTime := some serviceEndTime
        trackerBoundAt := some trackerBoundAt })
  | BindTask.notifConfigCreate config =>
      some { st with notifConfigs := st.notifConfigs ++ [config] }

/-- Modelled from the spec: the storage layer's atomic multi-statement
transaction primitive (`prisma.$transaction`, an external collaborator):
statements run in order and the whole batch is all-or-nothing, so the first
failing statement yields `none` with no partial state exposed. -/
def runTransaction (tasks : List BindTask) (st : BindState) : Option BindState :=
  match tasks with
  | [] => some st
  | task :: rest =>
      match applyTask task st with
      | none => none
      | some st1 => runTransaction rest st1

/-- The queued statements for one device of the batch: the per-asset update —
where a not-yet-activated asset with no service window reproduces the
source's `x.serviceTimeRange!.endTime` null assertion as a thrown error —
followed by one notification-config create per alarm type. -/
def buildDeviceTasks (accountId : String) (device : DeviceWithServiceTimeRange)
    (userId : String) (alarmTypes : List String) (now : Time) :
    Except String (List BindTask) :=
  match (match device.tracker.asset.serviceEndTime with
    | some _ =>
        Except.ok (BindTask.assetUpdateActivated device.tracker.asset.id userId now now)
    | none =>
        match device.serviceTimeRange with
        | none =>
            Except.error "TypeError: Cannot read properties of null (reading endTime)"
        | some range =>
            Except.ok (BindTask.assetUpdateUnactivated device.tracker.asset.id userId now
              range.endTime now)) with
  | Except.error e => Except.error e
  | Except.ok assetTask =>
      Except.ok (assetTask :: alarmTypes.map (fun alarmType =>
        BindTask.notifConfigCreate
          { kind := alarmType
            appNotification := false
            smsNotification := false
            phoneNotification := false
            wechatNotification := false
            phoneAlarmStartTime := "00:00"
            phoneAlarmEndTime := "23:59"
            smsAlarmStartTime := "00:00"
            smsAlarmEndTime := "23:59"
            createdAt := now
            createdBy := accountId
            assetId := device.tracker.asset.id }))

/-- The full `tasks` array built by the `forEach` of `bindDeviceToUserCore`,
device by device in input order; an error is the first thrown null
assertion. -/
def buildBindTasks (accountId : String) (devices : List DeviceWithServiceTimeRange)
    (userId : String) (alarmTypes : List String) (now : Time) :
    Except String (List BindTask) :=
  match devices with
  | [] => Except.ok []
  | device :: rest =>
      match buildDeviceTasks accountId device userId alarmTypes now with
      | Except.error e => Except.error e
      | Except.ok deviceTasks =>
          match buildBindTasks accountId rest userId alarmTypes now with
          | Except.error e => Except.error e
          | Except.ok restTasks => Except.ok (deviceTasks ++ restTasks)

/-- The outcome of a binding call: normal completion with the committed state
and the post-commit fan-out effects, or an abnormal termination (a thrown
error) with the state as the caller still observes it. -/
inductive BindResult where
  | ok (st : BindState) (effects : List Effect)
  | thrown (msg : String) (st : BindState)
deriving Repr, DecidableEq

/-- Embeds `bindDeviceToUserCore`: build the statement batch (a null
assertion aborts before any write), commit it as one transaction (a failed
transaction aborts with no write), then fire the post-commit fan-out: one
alarm refresh per asset, one batched realtime-status clear, one batched CDC
event list. -/
def bindDeviceToUserCore (accountId : String)
    (devicesWithServiceTimeRange : List DeviceWithServiceTimeRange)
    (userId : String) (alarmTypes : List String) (now : Time) (st : BindState) :
    BindResult :=
  match buildBindTasks accountId devicesWithServiceTimeRange userId alarmTypes now with
  | Except.error e => BindResult.thrown e st
  | Except.ok tasks =>
      match runTransaction tasks st with
      | none => BindResult.thrown "transaction aborted" st
      | some st1 =>
          BindResult.ok st1
            ((devicesWithServiceTimeRange.map (fun d => Effect.alarmRefresh d.tracker.asset.id))
              ++ [Effect.batchClearRealtimeStatus (devicesWithServiceTimeRange.map
                    (fun d => (d.tracker.id, d.tracker.trackerNumber)))]
              ++ [Effect.sendToCDCBatch (devicesWithServiceTimeRange.map
                    (fun d => ("device-changed", d.tracker.id)))])

/-- Embeds `bindDevicesToUser`: compute each device's window — the open
window from the package's open rule with no gift when the package
`isRelatedOpen`, else no window — and run the core binding. -/
def bindDevicesToUser (accountId : String)
    (devicesWithPackage : List DeviceWithDevicePackageAndOpenRule)
    (userId : String) (alarmTypes : List String) (now : Time) (st : BindState) :
    BindResult :=
  bindDeviceToUserCore accountId
    (devicesWithPackage.map (fun value =>
      { tracker := value.tracker
        serviceTimeRange :=
          if value.devicePackage.isRelatedOpen then
            some (calculateServiceTimeRangeForOpen value.tracker.toTracker
              ⟨value.openRule.chargeDuration, value.openRule.chargeTimeUnit⟩ none now)
          else
            none }))
    userId alarmTypes now st

/-- Embeds `bindDeviceToUser`: the single-device wrapper delegating to the
batch operation. -/
def bindDeviceToUser (accountId : String)
    (deviceWithPackage : DeviceWithDevicePackageAndOpenRule)
    (userId : String) (alarmTypes : List String) (now : Time) (st : BindState) :
    BindResult :=
  bindDevicesToUser accountId [deviceWithPackage] userId alarmTypes now st

/-- Embeds `mapOrderStatus`, with the source's branch order: the `paidAt`
null check, then the Paid check, then the RefundPending check, then the
Refunded check, with `''` as the final fallthrough. -/
def mapOrderStatus (order : AssetServicePeriodOrder) : String :=
  if order.paidAt = none then
    AssetOrderStatusEnums.Unpaid
  else if order.paidAt ≠ none ∧ order.refundedAt = none then
    AssetOrderStatusEnums.Paid
  else if order.refundApplyAt ≠ none ∧ order.refundedAt = none then
    AssetOrderStatusEnums.RefundPending
  else if order.refundedAt ≠ none then
    AssetOrderStatusEnums.Refunded
  else
    ""


/-- A concrete fresh renewal order used by witnesses. -/
def sampleRenewOrder : AssetServicePeriodOrder := {
  id := "o2", orderNumber := "N2", externalOrderNumber := none,
  orderTarget := "Renewal", paidAmount := none, paidAt := none,
  processedAt := none, refundApplyAt := none, refundedAmount := none,
  refundedAt := none, servicePeriod := 1, servicePeriodTimeUnit := "month",
  giftDuration := some 7, giftTimeUnit := some "day", isNeedProfitSharing := false,
  refundOrderNumber := none, assetId := "a2" }

/-- A concrete never-activated asset used by witnesses. -/
def sampleUnactivatedAsset : Asset := {
  id := "a2", userId := some "u2", merchantId := "M2",
  serviceStartTime := none, serviceEndTime := none,
  trackerBoundAt := none, trackerId := some "t2" }

/-- A concrete activated asset used by witnesses. -/
def sampleActivatedAsset : Asset := {
  id := "a3", userId := some "u3", merchantId := "M3",
  serviceStartTime := some 100, serviceEndTime := some 5000,
  trackerBoundAt := some 100, trackerId := some "t3" }

/-- A concrete tracker used by witnesses. -/
def sampleTracker : Tracker := ⟨"t2", "TN2", "m2", 7200⟩

/-- A concrete paid order with a pending refund request: `paidAt` set,
`refundApplyAt` set, `refundedAt` null. -/
def c7Order : AssetServicePeriodOrder := {
  id := "o7", orderNumber := "N7", externalOrderNumber := some "X7",
  orderTarget := "Renewal", paidAmount := some 10, paidAt := some 100,
  processedAt := some 100, refundApplyAt := some 200, refundedAmount := none,
  refundedAt := none, servicePeriod := 1, servicePeriodTimeUnit := "month",
  giftDuration := none, giftTimeUnit := none, isNeedProfitSharing := false,
  refundOrderNumber := some "R7", assetId := "a7" }

/-- A concrete device owned by merchant M6 with model m6, for the resolver
witness. -/
def c6Device : TrackerWithAsset := {
  id := "t6", trackerNumber := "TN6", trackerModelId := "m6", silentPeriodEndTime := 0,
  asset := {
    id := "a6", userId := none, merchantId := "M6", serviceStartTime := none,
    serviceEndTime := none, trackerBoundAt := none, trackerId := some "t6" } }

/-- A concrete platform-wide package compatible with model m6. -/
def c6PlatformPkg : DevicePackageWithModel := {
  id := "p0", merchantId := none, isRelatedOpen := true, deviceBindRule := none,
  deviceRechargeRules := [], trackereModels := [⟨"m6"⟩] }

/-- A concrete merchant-scoped package of M6 compatible with model m6. -/
def c6MerchantPkg : DevicePackageWithModel := {
  id := "p1", merchantId := some "M6", isRelatedOpen := false, deviceBindRule := none,
  deviceRechargeRules := [], trackereModels := [⟨"m6"⟩] }

/-- Recognizes the per-device asset update statements targeting a given
asset id. -/
def isAssetWriteFor (assetId : String) : BindTask → Bool
  | BindTask.assetUpdateActivated aid _ _ _ => aid == assetId
  | BindTask.assetUpdateUnactivated aid _ _ _ _ => aid == assetId
  | BindTask.notifConfigCreate _ => false

/-- A concrete activated device whose asset row is present in the witness
state. -/
def c2DeviceOk : DeviceWithServiceTimeRange := {
  tracker := {
    id := "t9", trackerNumber := "TN9", trackerModelId := "m9", silentPeriodEndTime := 0,
    asset := {
      id := "a9", userId := none, merchantId := "M9", serviceStartTime := none,
      serviceEndTime := some 900, trackerBoundAt := none, trackerId := some "t9" } },
  serviceTimeRange := none }

/-- A concrete activated device whose asset row is absent from the witness
state, making its write fail. -/
def c2DeviceMissing : DeviceWithServiceTimeRange := {
  tracker := {
    id := "tz", trackerNumber := "TNz", trackerModelId := "mz", silentPeriodEndTime := 0,
    asset := {
      id := "zz", userId := none, merchantId := "Mz", serviceStartTime := none,
      serviceEndTime := some 900, trackerBoundAt := none, trackerId := some "tz" } },
  serviceTimeRange := none }

/-- The witness storage state: only asset a9 exists. -/
def c2State : BindState := {
  assets := [{
    id := "a9", userId := none, merchantId := "M9", serviceStartTime := none,
    serviceEndTime := some 900, trackerBoundAt := none, trackerId := some "t9" }],
  notifConfigs := [] }

/-- A concrete never-activated device bound with a package that is not
`isRelatedOpen`. -/
def c8Device : DeviceWithDevicePackageAndOpenRule := {
  tracker := {
    id := "t8", trackerNumber := "TN8", trackerModelId := "m8", silentPeriodEndTime := 100,
    asset := {
      id := "a8", userId := none, merchantId := "M8", serviceStartTime := none,
      serviceEndTime := none, trackerBoundAt := none, trackerId := some "t8" } },
  devicePackage := {
    id := "p8", merchantId := some "M8", isRelatedOpen := false, deviceBindRule := none,
    deviceRechargeRules := [], trackereModels := [⟨"m8"⟩] },
  openRule := ⟨1, "month"⟩ }

/-- The witness storage state for the C8 scenario: device a8's asset row
exists. -/
def c8State : BindState := {
  assets := [{
    id := "a8", userId := none, merchantId := "M8", serviceStartTime := none,
    serviceEndTime := none, trackerBoundAt := none, trackerId := some "t8" }],
  notifConfigs := [] }

/-! Helper lemmas shared by the claim theorems. -/

/-- The order row written by activation handling: the four payment fields,
with `processedAt = now`. -/
theorem handleActivateSuccess_order_eq (order : AssetServicePeriodOrder) (amount : Int)
    (paidAt : Time) (tracker : Tracker) (userAsset : Asset) (transactionId : String)
    (coupons : List Coupon) (now : Time) :
    (handleActivateSuccess order amount paidAt tracker userAsset transactionId coupons now).order
      = { order with
            paidAmount := some amount, paidAt := some paidAt,
            externalOrderNumber := some transactionId, processedAt := some now } := rfl

/-- The order row written by renewal handling is the same payment update in
every branch, because the order update precedes the precondition check. -/
theorem handleRenewSuccess_order_eq (order : AssetServicePeriodOrder) (amount : Int)
    (paidAt : Time) (userAsset : Asset) (transactionId : String) (attach : Option String)
    (coupons : List Coupon) (now : Time) :
    (handleRenewSuccess order amount paidAt userAsset transactionId attach coupons now).order
      = { order with
            paidAmount := some amount, paidAt := some paidAt,
            externalOrderNumber := some transactionId, processedAt := some now } := by
  unfold handleRenewSuccess
  cases userAsset.serviceEndTime <;> rfl

/-- The write-once guard branch of `handlePaySuccess`. -/
theorem handlePaySuccess_dup (order : AssetServicePeriodOrder) (amount : Int)
    (paidAt : Time) (tracker : Tracker) (userAsset : Asset) (transactionId : String)
    (attach : Option String) (coupons : List Coupon) (now : Time)
    (h : order.processedAt ≠ none) :
    handlePaySuccess order amount paidAt tracker userAsset transactionId attach coupons now
      = { outcome := some ("order has been processed, we just ignore it, order id: " ++ order.id)
          order := order, asset := userAsset, coupons := coupons, effects := [] } := by
  unfold handlePaySuccess
  rw [if_pos h]

/-- Dispatch of a fresh renewal order to `handleRenewSuccess`. -/
theorem handlePaySuccess_renewal (order : AssetServicePeriodOrder) (amount : Int)
    (paidAt : Time) (tracker : Tracker) (userAsset : Asset) (transactionId : String)
    (attach : Option String) (coupons : List Coupon) (now : Time)
    (h1 : order.processedAt = none) (h2 : order.orderTarget = OrderTargetEnums.Renewal) :
    handlePaySuccess order amount paidAt tracker userAsset transactionId attach coupons now
      = handleRenewSuccess order amount paidAt userAsset transactionId attach coupons now := by
  unfold handlePaySuccess
  rw [if_neg (by simp [h1]), if_neg (by rw [h2]; decide), if_pos h2]

/-- On a fresh order with a known target, `handlePaySuccess` stores the
payment fields and the `processedAt` guard on the order. -/
theorem handlePaySuccess_order_processed (order : AssetServicePeriodOrder) (amount : Int)
    (paidAt : Time) (tracker : Tracker) (userAsset : Asset) (transactionId : String)
    (attach : Option String) (coupons : List Coupon) (now : Time)
    (h1 : order.processedAt = none)
    (h2 : order.orderTarget = OrderTargetEnums.Activate
      ∨ order.orderTarget = OrderTargetEnums.Renewal) :
    (handlePaySuccess order amount paidAt tracker userAsset transactionId attach coupons now).order
      = { order with
            paidAmount := some amount, paidAt := some paidAt,
            externalOrderNumber := some transactionId, processedAt := some now } := by
  unfold handlePaySuccess
  rw [if_neg (by simp [h1])]
  rcases h2 with h2 | h2
  · rw [if_pos h2]
    exact handleActivateSuccess_order_eq order amount paidAt tracker userAsset transactionId
      coupons now
  · rw [if_neg (by rw [h2]; decide), if_pos h2]
    exact handleRenewSuccess_order_eq order amount paidAt userAsset transactionId attach
      coupons now

/-- The full observable result of paying a renewal order whose asset was
never activated: payment fields written, violation outcome, nothing else. -/
theorem handlePaySuccess_renew_null (order : AssetServicePeriodOrder) (amount : Int)
    (paidAt : Time) (tracker : Tracker) (userAsset : Asset) (transactionId : String)
    (attach : Option String) (coupons : List Coupon) (now : Time)
    (h1 : order.processedAt = none) (h2 : order.orderTarget = OrderTargetEnums.Renewal)
    (h3 : userAsset.serviceEndTime = none) :
    handlePaySuccess order amount paidAt tracker userAsset transactionId attach coupons now
      = { outcome := some ("userAsset service end time is null, we can not renew it, userAsset id: "
            ++ userAsset.id ++ ", order id: " ++ order.id)
          order := { order with
            paidAmount := some amount, paidAt := some paidAt,
            externalOrderNumber := some transactionId, processedAt := some now }
          asset := userAsset
          coupons := coupons
          effects := [] } := by
  rw [handlePaySuccess_renewal order amount paidAt tracker userAsset transactionId attach
    coupons now h1 h2]
  unfold handleRenewSuccess
  rw [h3]

/-- C1: for every order whose `processedAt` is already set, `handlePaySuccess`
returns the duplicate outcome and performs zero writes: the order, asset and
coupon rows are returned unchanged and no downstream effect is fired; and
after a first successful settlement (target Activate or Renewal) of a fresh
order, a second `handlePaySuccess` call on the stored rows is exactly such a
no-op. -/
theorem c1_handlePaySuccess_idempotent (order : AssetServicePeriodOrder) (amount : Int)
    (paidAt : Time) (tracker : Tracker) (userAsset : Asset) (transactionId : String)
    (attach : Option String) (coupons : List Coupon) (now : Time) :
    (order.processedAt ≠ none →
      handlePaySuccess order amount paidAt tracker userAsset transactionId attach coupons now
        = { outcome := some ("order has been processed, we just ignore it, order id: " ++ order.id)
            order := order
            asset := userAsset
            coupons := coupons
            effects := [] }) ∧
    (order.processedAt = none →
      (order.orderTarget = OrderTargetEnums.Activate
        ∨ order.orderTarget = OrderTargetEnums.Renewal) →
      ∀ (amount2 : Int) (paidAt2 : Time) (tracker2 : Tracker) (transactionId2 : String)
        (attach2 : Option String) (now2 : Time),
        handlePaySuccess
            (handlePaySuccess order amount paidAt tracker userAsset transactionId attach coupons now).order
            amount2 paidAt2 tracker2
            (handlePaySuccess order amount paidAt tracker userAsset transactionId attach coupons now).asset
            transactionId2 attach2
            (handlePaySuccess order amount paidAt tracker userAsset transactionId attach coupons now).coupons
            now2
          = { outcome := some ("order has been processed, we just ignore it, order id: " ++ order.id)
              order := (handlePaySuccess order amount paidAt tracker userAsset transactionId attach coupons now).order
              asset := (handlePaySuccess order amount paidAt tracker userAsset transactionId attach coupons now).asset
              coupons := (handlePaySuccess order amount paidAt tracker userAsset transactionId attach coupons now).coupons
              effects := [] }) := by
  constructor
  · intro h
    exact handlePaySuccess_dup order amount paidAt tracker userAsset transactionId attach
      coupons now h
  · intro h1 h2 amount2 paidAt2 tracker2 transactionId2 attach2 now2
    have ho := handlePaySuccess_order_processed order amount paidAt tracker userAsset
      transactionId attach coupons now h1 h2
    rw [handlePaySuccess_dup _ amount2 paidAt2 tracker2 _ transactionId2 attach2 _ now2
      (by rw [ho]; simp)]
    rw [ho]

/-- C1 witness: a concrete already-processed order is returned untouched with
the duplicate outcome. -/
theorem c1_witness :
    handlePaySuccess
        ({
          id := "o1", orderNumber := "N1", externalOrderNumber := some "X1",
          orderTarget := "Activate", paidAmount := some 5, paidAt := some 10,
          processedAt := some 10, refundApplyAt := none, refundedAmount := none,
          refundedAt := none, servicePeriod := 1, servicePeriodTimeUnit := "month",
          giftDuration := none, giftTimeUnit := none, isNeedProfitSharing := false,
          refundOrderNumber := none, assetId := "a1" } : AssetServicePeriodOrder)
        5 10 ⟨"t1", "TN1", "m1", 0⟩
        ({
          id := "a1", userId := some "u1", merchantId := "M1",
          serviceStartTime := some 10, serviceEndTime := some 100,
          trackerBoundAt := some 10, trackerId := some "t1" } : Asset)
        "X2" none [] 20
      = { outcome := some "order has been processed, we just ignore it, order id: o1"
          order := {
            id := "o1", orderNumber := "N1", externalOrderNumber := some "X1",
            orderTarget := "Activate", paidAmount := some 5, paidAt := some 10,
            processedAt := some 10, refundApplyAt := none, refundedAmount := none,
            refundedAt := none, servicePeriod := 1, servicePeriodTimeUnit := "month",
            giftDuration := none, giftTimeUnit := none, isNeedProfitSharing := false,
            refundOrderNumber := none, assetId := "a1" }
          asset := {
            id := "a1", userId := some "u1", merchantId := "M1",
            serviceStartTime := some 10, serviceEndTime := some 100,
            trackerBoundAt := some 10, trackerId := some "t1" }
          coupons := []
          effects := [] }
      ∧ handlePaySuccess
          (handlePaySuccess sampleRenewOrder 9 50 sampleTracker sampleActivatedAsset "X9" none
            [] 60).order
          9 51 sampleTracker
          (handlePaySuccess sampleRenewOrder 9 50 sampleTracker sampleActivatedAsset "X9" none
            [] 60).asset
          "X9" none
          (handlePaySuccess sampleRenewOrder 9 50 sampleTracker sampleActivatedAsset "X9" none
            [] 60).coupons
          61
        = { outcome := some "order has been processed, we just ignore it, order id: o2"
            order := (handlePaySuccess sampleRenewOrder 9 50 sampleTracker sampleActivatedAsset
              "X9" none [] 60).order
            asset := (handlePaySuccess sampleRenewOrder 9 50 sampleTracker sampleActivatedAsset
              "X9" none [] 60).asset
            coupons := (handlePaySuccess sampleRenewOrder 9 50 sampleTracker sampleActivatedAsset
              "X9" none [] 60).coupons
            effects := [] } := by
  constructor
  · exact (c1_handlePaySuccess_idempotent _ 5 10 ⟨"t1", "TN1", "m1", 0⟩ _ "X2" none [] 20).1
      (by decide)
  · exact (c1_handlePaySuccess_idempotent sampleRenewOrder 9 50 sampleTracker
      sampleActivatedAsset "X9" none [] 60).2 (by decide) (Or.inr (by decide)) 9 51 sampleTracker
      "X9" none 61





/-- C3: paying a Renewal order whose asset was never activated
(`serviceEndTime = none`) yields the precondition-violation outcome; the
asset row and coupon table are unchanged and no downstream effect fires, so
the core write depending on the missing precondition does not proceed. -/
theorem c3_renewal_null_end_reports_violation (order : AssetServicePeriodOrder)
    (amount : Int) (paidAt : Time) (tracker : Tracker) (userAsset : Asset)
    (transactionId : String) (attach : Option String) (coupons : List Coupon) (now : Time)
    (h1 : order.processedAt = none)
    (h2 : order.orderTarget = OrderTargetEnums.Renewal)
    (h3 : userAsset.serviceEndTime = none) :
    (handlePaySuccess order amount paidAt tracker userAsset transactionId attach coupons now).outcome
        = some ("userAsset service end time is null, we can not renew it, userAsset id: "
            ++ userAsset.id ++ ", order id: " ++ order.id)
      ∧ (handlePaySuccess order amount paidAt tracker userAsset transactionId attach coupons now).asset
        = userAsset
      ∧ (handlePaySuccess order amount paidAt tracker userAsset transactionId attach coupons now).coupons
        = coupons
      ∧ (handlePaySuccess order amount paidAt tracker userAsset transactionId attach coupons now).effects
        = [] := by
  rw [handlePaySuccess_renew_null order amount paidAt tracker userAsset transactionId attach
    coupons now h1 h2 h3]
  exact ⟨rfl, rfl, rfl, rfl⟩

/-- C3 witness: the violation outcome on a concrete never-activated asset. -/
theorem c3_witness :
    (handlePaySuccess sampleRenewOrder 9 50 sampleTracker sampleUnactivatedAsset "X9" none
        [] 60).outcome
      = some "userAsset service end time is null, we can not renew it, userAsset id: a2, order id: o2"
      ∧ (handlePaySuccess sampleRenewOrder 9 50 sampleTracker sampleUnactivatedAsset "X9" none
        [] 60).asset = sampleUnactivatedAsset := by
  have h := c3_renewal_null_end_reports_violation sampleRenewOrder 9 50 sampleTracker
    sampleUnactivatedAsset "X9" none [] 60 rfl rfl rfl
  exact ⟨h.1, h.2.1⟩

/-- C10 (implicit): renewal handling writes the payment fields, including the
`processedAt` guard, before checking the `serviceEndTime` precondition, so the
first `handlePaySuccess` on a Renewal order for a never-activated asset marks
the order processed while reporting the violation, and every later
`handlePaySuccess` on the stored order returns the already-processed
duplicate outcome as a no-op instead of re-reporting the violation. -/
theorem c10_renewal_processed_despite_violation (order : AssetServicePeriodOrder)
    (amount : Int) (paidAt : Time) (tracker : Tracker) (userAsset : Asset)
    (transactionId : String) (attach : Option String) (coupons : List Coupon) (now : Time)
    (h1 : order.processedAt = none)
    (h2 : order.orderTarget = OrderTargetEnums.Renewal)
    (h3 : userAsset.serviceEndTime = none) :
    (handlePaySuccess order amount paidAt tracker userAsset transactionId attach coupons now).order.processedAt
        = some now
      ∧ (handlePaySuccess order amount paidAt tracker userAsset transactionId attach coupons now).order.paidAt
        = some paidAt
      ∧ (handlePaySuccess order amount paidAt tracker userAsset transactionId attach coupons now).outcome
        = some ("userAsset service end time is null, we can not renew it, userAsset id: "
            ++ userAsset.id ++ ", order id: " ++ order.id)
      ∧ ∀ (amount2 : Int) (paidAt2 : Time) (tracker2 : Tracker) (userAsset2 : Asset)
          (transactionId2 : String) (attach2 : Option String) (coupons2 : List Coupon)
          (now2 : Time),
          handlePaySuccess
              (handlePaySuccess order amount paidAt tracker userAsset transactionId attach coupons now).order
              amount2 paidAt2 tracker2 userAsset2 transactionId2 attach2 coupons2 now2
            = { outcome := some ("order has been processed, we just ignore it, order id: " ++ order.id)
                order := (handlePaySuccess order amount paidAt tracker userAsset transactionId attach coupons now).order
                asset := userAsset2
                coupons := coupons2
                effects := [] } := by
  have hmain := handlePaySuccess_renew_null order amount paidAt tracker userAsset transactionId
    attach coupons now h1 h2 h3
  refine ⟨by rw [hmain], by rw [hmain], by rw [hmain], ?_⟩
  intro amount2 paidAt2 tracker2 userAsset2 transactionId2 attach2 coupons2 now2
  rw [hmain]
  exact handlePaySuccess_dup _ amount2 paidAt2 tracker2 userAsset2 transactionId2 attach2
    coupons2 now2 (by simp)

/-- C10 witness: on a concrete never-activated asset the first call marks the
order processed and reports the violation, and a repeat call is the
duplicate no-op. -/
theorem c10_witness :
    (handlePaySuccess sampleRenewOrder 9 50 sampleTracker sampleUnactivatedAsset "X9" none
        [] 60).order.processedAt = some 60
      ∧ handlePaySuccess
          (handlePaySuccess sampleRenewOrder 9 50 sampleTracker sampleUnactivatedAsset "X9"
            none [] 60).order
          9 51 sampleTracker sampleUnactivatedAsset "X9" none [] 61
        = { outcome := some "order has been processed, we just ignore it, order id: o2"
            order := (handlePaySuccess sampleRenewOrder 9 50 sampleTracker
              sampleUnactivatedAsset "X9" none [] 60).order
            asset := sampleUnactivatedAsset
            coupons := []
            effects := [] } := by
  have h := c10_renewal_processed_despite_violation sampleRenewOrder 9 50 sampleTracker
    sampleUnactivatedAsset "X9" none [] 60 rfl rfl rfl
  exact ⟨h.1, h.2.2.2 9 51 sampleTracker sampleUnactivatedAsset "X9" none [] 61⟩

/-- C9: `handleRefundSuccess` is an idempotent no-op with the duplicate
outcome whenever `refundedAt` is already set; otherwise it writes exactly
`refundedAmount` and `refundedAt` on the order.  The handler receives no
asset or tracker row and fires no downstream effect, so service time is
never rolled back. -/
theorem c9_handleRefundSuccess_spec (order : AssetServicePeriodOrder) (amount : Int)
    (refundedAt : Time) :
    (order.refundedAt ≠ none →
      handleRefundSuccess order amount refundedAt
        = { outcome := some ("order has been refunded, we just ignore it, order id: " ++ order.id)
            order := order
            effects := [] }) ∧
    (order.refundedAt = none →
      handleRefundSuccess order amount refundedAt
        = { outcome := none
            order := { order with
              refundedAmount := some amount, refundedAt := some refundedAt }
            effects := [] }) := by
  constructor
  · intro h
    unfold handleRefundSuccess
    rw [if_pos h]
  · intro h
    unfold handleRefundSuccess
    rw [if_neg (by simp [h])]

/-- C9 witness: a concrete fresh order gets exactly the two refund fields; a
concrete already-refunded order is returned untouched. -/
theorem c9_witness :
    handleRefundSuccess sampleRenewOrder 9 70
        = { outcome := none
            order := { sampleRenewOrder with
              refundedAmount := some 9, refundedAt := some 70 }
            effects := [] }
      ∧ handleRefundSuccess { sampleRenewOrder with refundedAt := some 70 } 9 71
        = { outcome := some "order has been refunded, we just ignore it, order id: o2"
            order := { sampleRenewOrder with refundedAt := some 70 }
            effects := [] } := by
  constructor
  · exact (c9_handleRefundSuccess_spec sampleRenewOrder 9 70).2 rfl
  · exact (c9_handleRefundSuccess_spec { sampleRenewOrder with refundedAt := some 70 } 9 71).1
      (by simp [sampleRenewOrder])

/-- C4: the open window anchors at `now` when `now` is strictly before the
tracker's silent-period end and at the silent-period end otherwise, and in
both cases the end time is the anchor advanced by the rule's duration/unit
and then by the gift's duration/unit when a gift is present. -/
theorem c4_calculateServiceTimeRangeForOpen_spec (tracker : Tracker) (rule : Rule)
    (gift : Option Rule) (now : Time) :
    (now < tracker.silentPeriodEndTime →
      calculateServiceTimeRangeForOpen tracker rule gift now
        = { startTime := now
            endTime :=
              match gift with
              | none => calculateEndTime now rule.duration rule.timeUnit
              | some g =>
                  calculateEndTime (calculateEndTime now rule.duration rule.timeUnit)
                    g.duration g.timeUnit }) ∧
    (tracker.silentPeriodEndTime ≤ now →
      calculateServiceTimeRangeForOpen tracker rule gift now
        = { startTime := tracker.silentPeriodEndTime
            endTime :=
              match gift with
              | none =>
                  calculateEndTime tracker.silentPeriodEndTime rule.duration rule.timeUnit
              | some g =>
                  calculateEndTime
                    (calculateEndTime tracker.silentPeriodEndTime rule.duration rule.timeUnit)
                    g.duration g.timeUnit }) := by
  constructor
  · intro h
    unfold calculateServiceTimeRangeForOpen
    rw [if_pos h]
  · intro h
    unfold calculateServiceTimeRangeForOpen
    rw [if_neg (not_lt.mpr h)]

/-- C4 witness: the spec's example shape — activation five days into the
silent period with a 30-day rule and a 7-day gift starts at `now` and ends
37 days later; activation after the silent period anchors at its end. -/
theorem c4_witness :
    calculateServiceTimeRangeForOpen ⟨"t4", "TN4", "m4", 7200⟩ ⟨30, "day"⟩
        (some ⟨7, "day"⟩) 0
      = { startTime := 0, endTime := 53280 }
      ∧ calculateServiceTimeRangeForOpen ⟨"t4", "TN4", "m4", 7200⟩ ⟨30, "day"⟩ none 9000
      = { startTime := 7200, endTime := 50400 } := by
  constructor
  · have h := (c4_calculateServiceTimeRangeForOpen_spec ⟨"t4", "TN4", "m4", 7200⟩ ⟨30, "day"⟩
      (some ⟨7, "day"⟩) 0).1 (by decide)
    rw [h]
    rfl
  · have h := (c4_calculateServiceTimeRangeForOpen_spec ⟨"t4", "TN4", "m4", 7200⟩ ⟨30, "day"⟩
      none 9000).2 (by decide)
    rw [h]
    rfl

/-- C5: a renewal settlement extends the asset's stored `serviceEndTime` by
the order's service period and then by the gift when both gift fields are
present — the anchor is the stored end time, and the stored asset row after
renewal does not depend on the current time. -/
theorem c5_renewal_extends_stored_end (order : AssetServicePeriodOrder) (amount : Int)
    (paidAt : Time) (userAsset : Asset) (transactionId : String) (attach : Option String)
    (coupons : List Coupon) (now : Time) :
    (∀ e : Time, userAsset.serviceEndTime = some e →
      (handleRenewSuccess order amount paidAt userAsset transactionId attach coupons now).asset
        = { userAsset with
            serviceEndTime := some (calculateServiceEndTimeForRenew e
              ⟨order.servicePeriod, order.servicePeriodTimeUnit⟩
              (match order.giftDuration, order.giftTimeUnit with
                | some d, some u => some ⟨d, u⟩
                | _, _ => none)) }) ∧
    (∀ now2 : Time,
      (handleRenewSuccess order amount paidAt userAsset transactionId attach coupons now).asset
        = (handleRenewSuccess order amount paidAt userAsset transactionId attach coupons now2).asset) := by
  constructor
  · intro e he
    unfold handleRenewSuccess
    rw [he]
  · intro now2
    unfold handleRenewSuccess
    cases userAsset.serviceEndTime <;> rfl

/-- C5 witness: a concrete renewal anchored at the stored end time 5000 with
a one-month period and a 7-day gift lands at 5000 + 43200 + 10080, for any
current time. -/
theorem c5_witness :
    (handleRenewSuccess sampleRenewOrder 9 50 sampleActivatedAsset "X9" none [] 60).asset
      = { sampleActivatedAsset with serviceEndTime := some 58280 }
      ∧ (handleRenewSuccess sampleRenewOrder 9 50 sampleActivatedAsset "X9" none [] 60).asset
      = (handleRenewSuccess sampleRenewOrder 9 50 sampleActivatedAsset "X9" none [] 999999).asset := by
  constructor
  · have h := (c5_renewal_extends_stored_end sampleRenewOrder 9 50 sampleActivatedAsset "X9"
      none [] 60).1 5000 rfl
    rw [h]
    rfl
  · exact (c5_renewal_extends_stored_end sampleRenewOrder 9 50 sampleActivatedAsset "X9"
      none [] 60).2 999999


/-- C7 counterexample: a concrete order with `refundApplyAt` set and
`refundedAt` null is mapped to Paid, not RefundPending — the Paid branch of
`mapOrderStatus` runs before the RefundPending branch and shadows it. -/
theorem c7_counterexample :
    c7Order.refundApplyAt ≠ none ∧ c7Order.refundedAt = none
      ∧ mapOrderStatus c7Order = AssetOrderStatusEnums.Paid
      ∧ AssetOrderStatusEnums.Paid ≠ AssetOrderStatusEnums.RefundPending := by
  exact ⟨by decide, rfl, rfl, by decide⟩

/-- C7 amended: for every order with `refundApplyAt` set and `refundedAt`
null, `mapOrderStatus` returns Unpaid when `paidAt` is null and Paid
otherwise; the RefundPending branch is unreachable — no order whatsoever is
mapped to RefundPending — and the statuses actually returned remain mutually
exclusive as distinct values of a single-valued function. -/
theorem c7_mapOrderStatus_amended (order : AssetServicePeriodOrder)
    (h1 : order.refundApplyAt ≠ none) (h2 : order.refundedAt = none) :
    mapOrderStatus order
        = (if order.paidAt = none then AssetOrderStatusEnums.Unpaid
           else AssetOrderStatusEnums.Paid)
      ∧ ∀ o : AssetServicePeriodOrder, mapOrderStatus o ≠ AssetOrderStatusEnums.RefundPending := by
  constructor
  · unfold mapOrderStatus
    by_cases hp : order.paidAt = none
    · rw [if_pos hp, if_pos hp]
    · rw [if_neg hp, if_neg hp, if_pos ⟨hp, h2⟩]
  · intro o
    unfold mapOrderStatus
    by_cases hp : o.paidAt = none
    · rw [if_pos hp]
      decide
    · rw [if_neg hp]
      by_cases hr : o.refundedAt = none
      · rw [if_pos ⟨hp, hr⟩]
        decide
      · rw [if_neg (fun hc => hr hc.2), if_neg (fun hc => hr hc.2), if_pos hr]
        decide

/-- C7 amended witness: the concrete pending-refund order maps to Paid and
is not mapped to RefundPending. -/
theorem c7_amended_witness :
    mapOrderStatus c7Order
        = (if c7Order.paidAt = none then AssetOrderStatusEnums.Unpaid
           else AssetOrderStatusEnums.Paid)
      ∧ mapOrderStatus c7Order ≠ AssetOrderStatusEnums.RefundPending := by
  have h := c7_mapOrderStatus_amended c7Order (by decide) rfl
  exact ⟨h.1, h.2 c7Order⟩

/-- First-match characterization of `List.find?`: a hit is an element of the
list whose earlier positions all fail the predicate. -/
theorem find?_eq_some_first {α : Type} (p : α → Bool) (l : List α) (a : α)
    (h : l.find? p = some a) :
    ∃ i : Fin l.length, l.get i = a ∧ p a = true
      ∧ ∀ j : Fin l.length, (j : Nat) < (i : Nat) → p (l.get j) = false := by
  induction l with
  | nil => simp [List.find?] at h
  | cons x xs ih =>
    by_cases hx : p x = true
    · rw [List.find?_cons_of_pos _ hx] at h
      obtain rfl : x = a := by injection h
      refine ⟨⟨0, by simp⟩, rfl, hx, ?_⟩
      intro j hj
      exact absurd hj (by simp)
    · rw [List.find?_cons_of_neg _ (by simpa using hx)] at h
      obtain ⟨i, hget, hpa, hfirst⟩ := ih h
      refine ⟨⟨i + 1, by simpa using i.isLt⟩, by simpa using hget, hpa, ?_⟩
      intro j hj
      match j with
      | ⟨0, _⟩ => simpa using hx
      | ⟨jv + 1, hlt⟩ =>
          exact hfirst ⟨jv, by simpa using hlt⟩ (by simpa using hj)

/-- A predicate with a witness in the list makes `List.find?` hit. -/
theorem find?_ne_none_of_mem {α : Type} {p : α → Bool} {l : List α} {a : α}
    (ha : a ∈ l) (hp : p a = true) : l.find? p ≠ none := by
  intro h
  rw [List.find?_eq_none] at h
  exact h a ha hp

/-- C6: whenever any merchant-scoped package matches the device, the resolver
returns the first such package in caller order — even when a platform-wide
match appears earlier; only when no merchant-scoped package matches does it
return the first platform-wide match; and with no match of either kind it
returns none. -/
theorem c6_findDevicePackageByDevice_spec (device : TrackerWithAsset)
    (pkgs : List DevicePackageWithModel) :
    (∀ i : Fin pkgs.length, merchantModelMatch device (pkgs.get i) = true →
      ∃ j : Fin pkgs.length, (j : Nat) ≤ (i : Nat)
        ∧ merchantModelMatch device (pkgs.get j) = true
        ∧ (∀ k : Fin pkgs.length, (k : Nat) < (j : Nat) →
            merchantModelMatch device (pkgs.get k) = false)
        ∧ findDevicePackageByDevice device pkgs = some (pkgs.get j)) ∧
    ((∀ q ∈ pkgs, merchantModelMatch device q = false) →
      ∀ i : Fin pkgs.length, platformModelMatch device (pkgs.get i) = true →
      ∃ j : Fin pkgs.length, (j : Nat) ≤ (i : Nat)
        ∧ platformModelMatch device (pkgs.get j) = true
        ∧ (∀ k : Fin pkgs.length, (k : Nat) < (j : Nat) →
            platformModelMatch device (pkgs.get k) = false)
        ∧ findDevicePackageByDevice device pkgs = some (pkgs.get j)) ∧
    ((∀ q ∈ pkgs, merchantModelMatch device q = false ∧ platformModelMatch device q = false) →
      findDevicePackageByDevice device pkgs = none) := by
  refine ⟨?_, ?_, ?_⟩
  · intro i hi
    cases hfind : pkgs.find? (merchantModelMatch device) with
    | none =>
        exact absurd hfind
          (find?_ne_none_of_mem (List.get_mem pkgs i.val i.isLt) hi)
    | some a =>
        obtain ⟨j, hget, hpa, hfirst⟩ := find?_eq_some_first _ pkgs a hfind
        refine ⟨j, ?_, by rw [hget]; exact hpa, hfirst, ?_⟩
        · by_contra hle
          have hf := hfirst i (by omega)
          rw [hf] at hi
          exact absurd hi (by simp)
        · unfold findDevicePackageByDevice
          rw [hfind, hget]
  · intro hno i hi
    have hnone : pkgs.find? (merchantModelMatch device) = none :=
      List.find?_eq_none.mpr (fun x hx => by simp [hno x hx])
    cases hfind : pkgs.find? (platformModelMatch device) with
    | none =>
        exact absurd hfind
          (find?_ne_none_of_mem (List.get_mem pkgs i.val i.isLt) hi)
    | some a =>
        obtain ⟨j, hget, hpa, hfirst⟩ := find?_eq_some_first _ pkgs a hfind
        refine ⟨j, ?_, by rw [hget]; exact hpa, hfirst, ?_⟩
        · by_contra hle
          have hf := hfirst i (by omega)
          rw [hf] at hi
          exact absurd hi (by simp)
        · unfold findDevicePackageByDevice
          rw [hnone, hfind, hget]
  · intro hno
    have h1 : pkgs.find? (merchantModelMatch device) = none :=
      List.find?_eq_none.mpr (fun x hx => by simp [(hno x hx).1])
    have h2 : pkgs.find? (platformModelMatch device) = none :=
      List.find?_eq_none.mpr (fun x hx => by simp [(hno x hx).2])
    unfold findDevicePackageByDevice
    rw [h1, h2]




/-- C6 witness: with a platform-wide match listed before a merchant-scoped
match, the resolver still returns the merchant-scoped package. -/
theorem c6_witness :
    findDevicePackageByDevice c6Device [c6PlatformPkg, c6MerchantPkg] = some c6MerchantPkg := by
  obtain ⟨j, hji, hm, hfirst, hres⟩ :=
    (c6_findDevicePackageByDevice_spec c6Device [c6PlatformPkg, c6MerchantPkg]).1
      ⟨1, by decide⟩ (by decide)
  obtain ⟨jv, hjlt⟩ := j
  match jv, hjlt with
  | 0, _ =>
      have hm0 : merchantModelMatch c6Device c6PlatformPkg = true := hm
      exact absurd hm0 (by decide)
  | 1, _ => exact hres


/-- Updating rows in place leaves the asset table's id column unchanged when
the row rewrite preserves ids. -/
theorem map_update_preserves_ids (l : List Asset) (assetId : String) (f : Asset → Asset)
    (hf : ∀ a, (f a).id = a.id) :
    (l.map (fun a => if a.id == assetId then f a else a)).map Asset.id
      = l.map Asset.id := by
  induction l with
  | nil => rfl
  | cons x xs ih =>
      simp only [List.map_cons]
      rw [ih]
      by_cases hx : (x.id == assetId) = true
      · rw [if_pos hx, hf]
      · rw [if_neg hx]

/-- A successful `updateAssetById` preserves the id column. -/
theorem updateAssetById_ids (st : BindState) (assetId : String) (f : Asset → Asset)
    (st' : BindState) (h : updateAssetById st assetId f = some st')
    (hf : ∀ a, (f a).id = a.id) :
    st'.assets.map Asset.id = st.assets.map Asset.id := by
  unfold updateAssetById at h
  by_cases hc : st.assets.any (fun a => a.id == assetId) = true
  · rw [if_pos hc] at h
    injection h with h'
    rw [← h']
    exact map_update_preserves_ids st.assets assetId f hf
  · rw [if_neg hc] at h
    exact absurd h (by simp)

/-- `updateAssetById` fails when no row carries the requested id. -/
theorem updateAssetById_none (st : BindState) (assetId : String) (f : Asset → Asset)
    (hid : assetId ∉ st.assets.map Asset.id) :
    updateAssetById st assetId f = none := by
  unfold updateAssetById
  rw [if_neg]
  intro hc
  rw [List.any_eq_true] at hc
  obtain ⟨a, ha, hb⟩ := hc
  exact hid (by rw [List.mem_map]; exact ⟨a, ha, by simpa using hb⟩)

/-- Every statement of the binding transaction preserves the asset id
column. -/
theorem applyTask_preserves_ids (task : BindTask) (st st' : BindState)
    (h : applyTask task st = some st') :
    st'.assets.map Asset.id = st.assets.map Asset.id := by
  cases task with
  | assetUpdateActivated aid u s tb =>
      exact updateAssetById_ids st aid _ st' h (fun a => rfl)
  | assetUpdateUnactivated aid u s se tb =>
      exact updateAssetById_ids st aid _ st' h (fun a => rfl)
  | notifConfigCreate cfg =>
      injection h with h'
      rw [← h']

/-- An asset-update statement targeting an id absent from the asset table
fails. -/
theorem applyTask_none_of_missing (task : BindTask) (assetId : String) (st : BindState)
    (ht : isAssetWriteFor assetId task = true)
    (hid : assetId ∉ st.assets.map Asset.id) :
    applyTask task st = none := by
  cases task with
  | assetUpdateActivated aid u s tb =>
      obtain rfl : aid = assetId := by simpa [isAssetWriteFor] using ht
      exact updateAssetById_none st aid _ hid
  | assetUpdateUnactivated aid u s se tb =>
      obtain rfl : aid = assetId := by simpa [isAssetWriteFor] using ht
      exact updateAssetById_none st aid _ hid
  | notifConfigCreate cfg => simp [isAssetWriteFor] at ht

/-- The whole transaction fails when it contains an asset update whose target
id is absent: no prefix of the batch can create an asset row, so the failing
statement fails whenever it is reached. -/
theorem runTransaction_none : ∀ (tasks : List BindTask) (assetId : String) (st : BindState),
    assetId ∉ st.assets.map Asset.id →
    (∃ t ∈ tasks, isAssetWriteFor assetId t = true) →
    runTransaction tasks st = none := by
  intro tasks
  induction tasks with
  | nil =>
      intro assetId st hid ht
      obtain ⟨t, htm, _⟩ := ht
      simp at htm
  | cons t0 rest ih =>
      intro assetId st hid ht
      obtain ⟨t, htm, htw⟩ := ht
      unfold runTransaction
      cases happ : applyTask t0 st with
      | none => rfl
      | some st1 =>
          rcases List.mem_cons.mp htm with rfl | hmem
          · rw [applyTask_none_of_missing t assetId st htw hid] at happ
            exact absurd happ (by simp)
          · have hid1 : assetId ∉ st1.assets.map Asset.id := by
              rw [applyTask_preserves_ids t0 st st1 happ]
              exact hid
            exact ih assetId st1 hid1 ⟨t, hmem, htw⟩

/-- The statements built for one device contain an asset update targeting
that device's asset. -/
theorem buildDeviceTasks_has_asset_write (accountId : String)
    (device : DeviceWithServiceTimeRange) (userId : String) (alarmTypes : List String)
    (now : Time) (ts : List BindTask)
    (h : buildDeviceTasks accountId device userId alarmTypes now = Except.ok ts) :
    ∃ t ∈ ts, isAssetWriteFor device.tracker.asset.id t = true := by
  unfold buildDeviceTasks at h
  cases hse : device.tracker.asset.serviceEndTime with
  | some e =>
      simp only [hse] at h
      injection h with h'
      rw [← h']
      exact ⟨_, List.mem_cons_self _ _, by simp [isAssetWriteFor]⟩
  | none =>
      cases hr : device.serviceTimeRange with
      | none =>
          simp only [hse, hr] at h
          exact absurd h (by simp)
      | some range =>
          simp only [hse, hr] at h
          injection h with h'
          rw [← h']
          exact ⟨_, List.mem_cons_self _ _, by simp [isAssetWriteFor]⟩

/-- The batch built for a device list contains, for every device of the
list, an asset update targeting that device's asset. -/
theorem buildBindTasks_has_asset_write : ∀ (devices : List DeviceWithServiceTimeRange)
    (accountId userId : String) (alarmTypes : List String) (now : Time)
    (tasks : List BindTask),
    buildBindTasks accountId devices userId alarmTypes now = Except.ok tasks →
    ∀ d ∈ devices, ∃ t ∈ tasks, isAssetWriteFor d.tracker.asset.id t = true := by
  intro devices
  induction devices with
  | nil =>
      intro _ _ _ _ _ _ d hd
      simp at hd
  | cons d0 rest ih =>
      intro accountId userId alarmTypes now tasks h d hd
      unfold buildBindTasks at h
      cases h0 : buildDeviceTasks accountId d0 userId alarmTypes now with
      | error e =>
          simp only [h0] at h
          exact absurd h (by simp)
      | ok ts0 =>
          simp only [h0] at h
          cases h1 : buildBindTasks accountId rest userId alarmTypes now with
          | error e =>
              simp only [h1] at h
              exact absurd h (by simp)
          | ok ts1 =>
              simp only [h1] at h
              injection h with h'
              rw [← h']
              rcases List.mem_cons.mp hd with rfl | hdm
              · obtain ⟨t, htm, htw⟩ := buildDeviceTasks_has_asset_write accountId d
                  userId alarmTypes now ts0 h0
                exact ⟨t, List.mem_append_left _ htm, htw⟩
              · obtain ⟨t, htm, htw⟩ := ih accountId userId alarmTypes now ts1 h1 d hdm
                exact ⟨t, List.mem_append_right _ htm, htw⟩

/-- C2: all per-device core writes of a batch bind are committed through the
single transaction, all-or-nothing: an abnormal termination always leaves the
storage state exactly as it was, and in particular whenever any single
device's asset write fails (its asset row is absent), the whole call
terminates abnormally with no asset in the batch mutated and no
notification config created. -/
theorem c2_bindDeviceToUserCore_atomic (accountId : String)
    (devices : List DeviceWithServiceTimeRange) (userId : String)
    (alarmTypes : List String) (now : Time) (st : BindState) :
    (∀ (msg : String) (st' : BindState),
      bindDeviceToUserCore accountId devices userId alarmTypes now st
          = BindResult.thrown msg st' → st' = st) ∧
    (∀ d ∈ devices, d.tracker.asset.id ∉ st.assets.map Asset.id →
      ∃ msg, bindDeviceToUserCore accountId devices userId alarmTypes now st
          = BindResult.thrown msg st) := by
  constructor
  · intro msg st' h
    unfold bindDeviceToUserCore at h
    cases hb : buildBindTasks accountId devices userId alarmTypes now with
    | error e =>
        simp only [hb] at h
        injection h with h1 h2
        exact h2.symm
    | ok tasks =>
        simp only [hb] at h
        cases hr : runTransaction tasks st with
        | none =>
            simp only [hr] at h
            injection h with h1 h2
            exact h2.symm
        | some st1 =>
            simp only [hr] at h
            exact absurd h (by simp)
  · intro d hd hid
    cases hb : buildBindTasks accountId devices userId alarmTypes now with
    | error e =>
        exact ⟨e, by unfold bindDeviceToUserCore; simp only [hb]⟩
    | ok tasks =>
        obtain ⟨t, htm, htw⟩ := buildBindTasks_has_asset_write devices accountId userId
          alarmTypes now tasks hb d hd
        have hr : runTransaction tasks st = none :=
          runTransaction_none tasks d.tracker.asset.id st hid ⟨t, htm, htw⟩
        exact ⟨"transaction aborted", by unfold bindDeviceToUserCore; simp only [hb, hr]⟩




/-- C2 witness: a concrete two-device batch whose second write fails ends
thrown with the state unchanged — the first device's asset is not mutated. -/
theorem c2_witness :
    ∃ msg, bindDeviceToUserCore "acct" [c2DeviceOk, c2DeviceMissing] "u9" ["SOS"] 0 c2State
      = BindResult.thrown msg c2State := by
  exact (c2_bindDeviceToUserCore_atomic "acct" [c2DeviceOk, c2DeviceMissing] "u9" ["SOS"] 0
    c2State).2 c2DeviceMissing (by simp) (by decide)

/-- A never-activated device with no service window makes its task build
throw the source's null assertion. -/
theorem buildDeviceTasks_error_of_null (accountId : String)
    (device : DeviceWithServiceTimeRange) (userId : String) (alarmTypes : List String)
    (now : Time)
    (h1 : device.tracker.asset.serviceEndTime = none)
    (h2 : device.serviceTimeRange = none) :
    buildDeviceTasks accountId device userId alarmTypes now
      = Except.error "TypeError: Cannot read properties of null (reading endTime)" := by
  unfold buildDeviceTasks
  simp only [h1, h2]

/-- A batch containing a device whose task build throws makes the whole
batch build throw. -/
theorem buildBindTasks_error_of_mem : ∀ (devices : List DeviceWithServiceTimeRange)
    (accountId userId : String) (alarmTypes : List String) (now : Time),
    (∃ d ∈ devices, buildDeviceTasks accountId d userId alarmTypes now
        = Except.error "TypeError: Cannot read properties of null (reading endTime)") →
    ∃ msg, buildBindTasks accountId devices userId alarmTypes now = Except.error msg := by
  intro devices
  induction devices with
  | nil =>
      intro _ _ _ _ h
      obtain ⟨d, hd, _⟩ := h
      simp at hd
  | cons d0 rest ih =>
      intro accountId userId alarmTypes now h
      obtain ⟨d, hd, herr⟩ := h
      cases h0 : buildDeviceTasks accountId d0 userId alarmTypes now with
      | error e =>
          exact ⟨e, by unfold buildBindTasks; simp only [h0]⟩
      | ok ts0 =>
          rcases List.mem_cons.mp hd with rfl | hdm
          · rw [h0] at herr
            exact absurd herr (by simp)
          · obtain ⟨msg, hrest⟩ := ih accountId userId alarmTypes now ⟨d, hdm, herr⟩
            exact ⟨msg, by unfold buildBindTasks; simp only [h0, hrest]⟩

/-- C8 (amended): whenever a batch contains a not-yet-activated device whose
package is not `isRelatedOpen` (so its computed window is none), the binding
call terminates abnormally with the null-assertion error, before any core
write: the storage state is returned exactly unchanged. -/
theorem c8_bind_missing_window_throws (accountId : String)
    (devicesWithPackage : List DeviceWithDevicePackageAndOpenRule) (userId : String)
    (alarmTypes : List String) (now : Time) (st : BindState)
    (h : ∃ d ∈ devicesWithPackage, d.tracker.asset.serviceEndTime = none
        ∧ d.devicePackage.isRelatedOpen = false) :
    ∃ msg, bindDevicesToUser accountId devicesWithPackage userId alarmTypes now st
      = BindResult.thrown msg st := by
  obtain ⟨d, hd, hse, hro⟩ := h
  unfold bindDevicesToUser
  have hmem :
      ({ tracker := d.tracker
         serviceTimeRange :=
           if d.devicePackage.isRelatedOpen then
             some (calculateServiceTimeRangeForOpen d.tracker.toTracker
               ⟨d.openRule.chargeDuration, d.openRule.chargeTimeUnit⟩ none now)
           else none } : DeviceWithServiceTimeRange)
        ∈ devicesWithPackage.map (fun value =>
            ({ tracker := value.tracker
               serviceTimeRange :=
                 if value.devicePackage.isRelatedOpen then
                   some (calculateServiceTimeRangeForOpen value.tracker.toTracker
                     ⟨value.openRule.chargeDuration, value.openRule.chargeTimeUnit⟩ none now)
                 else none } : DeviceWithServiceTimeRange)) :=
    List.mem_map_of_mem _ hd
  have herr := buildDeviceTasks_error_of_null accountId
    ({ tracker := d.tracker
       serviceTimeRange :=
         if d.devicePackage.isRelatedOpen then
           some (calculateServiceTimeRangeForOpen d.tracker.toTracker
             ⟨d.openRule.chargeDuration, d.openRule.chargeTimeUnit⟩ none now)
         else none } : DeviceWithServiceTimeRange)
    userId alarmTypes now hse (by simp [hro])
  obtain ⟨msg, hbuild⟩ := buildBindTasks_error_of_mem _ accountId userId alarmTypes now
    ⟨_, hmem, herr⟩
  exact ⟨msg, by unfold bindDeviceToUserCore; simp only [hbuild]⟩



/-- C8 counterexample: on a concrete batch with a not-yet-activated device
and a package that does not activate on binding, `bindDevicesToUser` does not
report a descriptive precondition-violation outcome — it terminates
abnormally with a thrown null-assertion error (while indeed performing no
core write: the state comes back unchanged). -/
theorem c8_counterexample :
    bindDevicesToUser "acct" [c8Device] "u8" ["SOS"] 0 c8State
      = BindResult.thrown "TypeError: Cannot read properties of null (reading endTime)"
          c8State := by
  rfl

/-- C8 witness: the amended claim applied to the concrete scenario — the
call throws and the state is exactly unchanged. -/
theorem c8_witness :
    ∃ msg, bindDevicesToUser "acct" [c8Device] "u8" ["SOS"] 0 c8State
      = BindResult.thrown msg c8State := by
  exact c8_bind_missing_window_throws "acct" [c8Device] "u8" ["SOS"] 0 c8State
    ⟨c8Device, by simp, rfl, rfl⟩
